import Mathlib

/-!
Verification of the deployment orchestrator in `src/main.py`
(`NoCodeNexus/github-automation-`).

The single handler `deploy(req)` drives a fixed sequence of external calls
against the hosting provider: authenticate (`g.get_user()`), look up or
create the repository, look up `index.html` and update or create it, enable
Pages via `POST .../pages`, and fetch the Pages URL via `GET .../pages`.

We embed the handler shallowly: the outcome of every external call is
supplied by an `Env` record (the environment stands for the provider), and
`deploy` returns the handler's result together with the ordered trace of
external calls it made.  Python exception control flow is translated
explicitly; in particular an exception raised inside an `except` handler of
a `try` block is NOT caught by that block's other handlers, so such
failures escape the handler as unstructured exceptions (`DeployResult.unhandled`).
The `time.sleep(2)` on line 55 is a pure pause with no provider interaction
and is not recorded as an external call.
-/

/-- Python `str.strip()` whitespace set: space, tab, newline, carriage
return, vertical tab, form feed. -/
def isPySpace (c : Char) : Bool :=
  c = ' ' || c = '\t' || c = '\n' || c = '\r' ||
  c = Char.ofNat 11 || c = Char.ofNat 12

/-- Python `s.strip()`: remove leading and trailing whitespace. -/
def pyStrip (s : String) : String :=
  String.mk (((s.toList.dropWhile isPySpace).reverse.dropWhile isPySpace).reverse)

/-- The request body of `POST /deploy` (`class DeployRequest(BaseModel)`,
`src/main.py` lines 26-28): a repository name and the HTML content. -/
structure DeployRequest where
  repoName : String
  html : String
  deriving DecidableEq, Repr

/-- One external call made by the handler, with the arguments the source
passes (`src/main.py` lines 39, 48, 51, 59, 60-66, 68-73, 84, 92). -/
inductive Call where
  | getUser : Call
  | getRepo (name : String) : Call
  | createRepo (name : String) (autoInit : Bool) : Call
  | getContents (path ref : String) : Call
  | updateFile (path message content sha branch : String) : Call
  | createFile (path message content branch : String) : Call
  | pagesPost (owner repo : String) : Call
  | pagesGet (owner repo : String) : Call
  deriving DecidableEq, Repr

/-- Outcome of `g.get_user()` (line 39): the authenticated user's login,
or any exception (the handler catches bare `Exception`, line 40). -/
inductive GetUserOutcome where
  | ok (login : String) : GetUserOutcome
  | exc : GetUserOutcome
  deriving DecidableEq, Repr

/-- Outcome of `user.get_repo(repo_name)` (line 48): success, or a
`GithubException` carrying a status and message (lines 49-53). -/
inductive GetRepoOutcome where
  | ok : GetRepoOutcome
  | ghExc (status : Nat) (msg : String) : GetRepoOutcome
  deriving DecidableEq, Repr

/-- Outcome of `user.create_repo(...)` (line 51): success or an exception.
The call sits inside the `except GithubException` handler, so an exception
here escapes the handler. -/
inductive CreateRepoOutcome where
  | ok : CreateRepoOutcome
  | exc (msg : String) : CreateRepoOutcome
  deriving DecidableEq, Repr

/-- Outcome of `repo.get_contents("index.html", ref="main")` (line 59):
the existing file's revision sha, an `UnknownObjectException` (not found),
or any other exception. -/
inductive GetContentsOutcome where
  | ok (sha : String) : GetContentsOutcome
  | unknownObjectExc : GetContentsOutcome
  | exc (msg : String) : GetContentsOutcome
  deriving DecidableEq, Repr

/-- Outcome of `repo.update_file(...)` (lines 60-66).  An
`UnknownObjectException` raised here is caught by the `except
UnknownObjectException` clause of the same `try` (line 67); any other
exception is caught by the `except Exception` clause (line 74). -/
inductive UpdateFileOutcome where
  | ok : UpdateFileOutcome
  | unknownObjectExc : UpdateFileOutcome
  | exc (msg : String) : UpdateFileOutcome
  deriving DecidableEq, Repr

/-- Outcome of `repo.create_file(...)` (lines 68-73).  The call sits inside
the `except UnknownObjectException` handler, so an exception here escapes
the handler unstructured. -/
inductive CreateFileOutcome where
  | ok : CreateFileOutcome
  | exc (msg : String) : CreateFileOutcome
  deriving DecidableEq, Repr

/-- An HTTP response seen by the handler via `requests` (lines 84, 92):
status code, body text, and the optional `html_url` field obtained by
`info.json().get("html_url")` (line 98; `none` when the field is absent). -/
structure HttpResponse where
  status : Nat
  text : String
  htmlUrl : Option String
  deriving DecidableEq, Repr

/-- The provider environment: the outcome every external call would have
if made.  Each call site occurs at most once per handler run. -/
structure Env where
  getUser : GetUserOutcome
  getRepo : GetRepoOutcome
  createRepo : CreateRepoOutcome
  getContents : GetContentsOutcome
  updateFile : UpdateFileOutcome
  createFile : CreateFileOutcome
  pagesPost : HttpResponse
  pagesGet : HttpResponse
  deriving DecidableEq, Repr

/-- The handler's result: a `200 {"url": ...}` success, a structured
`HTTPException(status_code, detail)`, or a raw exception escaping the
handler (no `HTTPException` wraps it). -/
inductive DeployResult where
  | success (url : String) : DeployResult
  | httpError (status : Nat) (detail : String) : DeployResult
  | unhandled (msg : String) : DeployResult
  deriving DecidableEq, Repr

/-- The HTTP status of a structured error result, if the result is one. -/
def DeployResult.httpStatus : DeployResult → Option Nat
  | .httpError s _ => some s
  | _ => none

/-- Lines 84-102: enable Pages (`requests.post`) and fetch the Pages URL
(`requests.get`).  Returns the result and the calls made by these steps. -/
def pagesSteps (env : Env) (username repoName : String) :
    DeployResult × List Call :=
  let resp := env.pagesPost
  if resp.status ≠ 201 ∧ resp.status ≠ 204 then
    (.httpError 500
      ("Enabling Pages failed (" ++ toString resp.status ++ "): " ++ resp.text),
      [.pagesPost username repoName])
  else
    let info := env.pagesGet
    if info.status ≠ 200 then
      (.httpError 500
        ("Fetching Pages info failed (" ++ toString info.status ++ "): " ++ info.text),
        [.pagesPost username repoName, .pagesGet username repoName])
    else
      match info.htmlUrl with
      | none =>
        (.httpError 500 "No html_url in Pages response",
          [.pagesPost username repoName, .pagesGet username repoName])
      | some url =>
        if url = "" then
          (.httpError 500 "No html_url in Pages response",
            [.pagesPost username repoName, .pagesGet username repoName])
        else
          (.success url,
            [.pagesPost username repoName, .pagesGet username repoName])

/-- Lines 68-73: `repo.create_file(...)` inside the `except
UnknownObjectException` handler.  On success the handler continues with the
Pages steps; an exception escapes the handler unstructured. -/
def createFileStep (env : Env) (username repoName html : String) :
    DeployResult × List Call :=
  let call := Call.createFile "index.html" "Add index.html" html "main"
  match env.createFile with
  | .ok =>
    let rest := pagesSteps env username repoName
    (rest.1, call :: rest.2)
  | .exc msg => (.unhandled msg, [call])

/-- Lines 58-75: the `try` block pushing `index.html`.  `get_contents`
succeeding leads to `update_file` with the fetched sha; an
`UnknownObjectException` from either leads to `create_file`; any other
exception from the `try` body becomes `HTTPException(500, "Failed to push
index.html: ...")`. -/
def fileSteps (env : Env) (username repoName html : String) :
    DeployResult × List Call :=
  let lookup := Call.getContents "index.html" "main"
  match env.getContents with
  | .ok sha =>
    let upd := Call.updateFile "index.html" "Update index.html" html sha "main"
    match env.updateFile with
    | .ok =>
      let rest := pagesSteps env username repoName
      (rest.1, lookup :: upd :: rest.2)
    | .unknownObjectExc =>
      let rest := createFileStep env username repoName html
      (rest.1, lookup :: upd :: rest.2)
    | .exc msg =>
      (.httpError 500 ("Failed to push index.html: " ++ msg), [lookup, upd])
  | .unknownObjectExc =>
    let rest := createFileStep env username repoName html
    (rest.1, lookup :: rest.2)
  | .exc msg =>
    (.httpError 500 ("Failed to push index.html: " ++ msg), [lookup])

/-- The `deploy` handler, `src/main.py` lines 31-102.  Returns the
handler's result and the ordered trace of external calls made. -/
def deploy (env : Env) (req : DeployRequest) : DeployResult × List Call :=
  let html := req.html
  if pyStrip html = "" then
    (.httpError 400 "Empty HTML content provided", [])
  else
    match env.getUser with
    | .exc => (.httpError 401 "Invalid GitHub token", [.getUser])
    | .ok username =>
      let repoName := req.repoName
      match env.getRepo with
      | .ok =>
        let rest := fileSteps env username repoName html
        (rest.1, Call.getUser :: Call.getRepo repoName :: rest.2)
      | .ghExc status msg =>
        if status = 404 then
          match env.createRepo with
          | .ok =>
            let rest := fileSteps env username repoName html
            (rest.1, Call.getUser :: Call.getRepo repoName ::
              Call.createRepo repoName true :: rest.2)
          | .exc m =>
            (.unhandled m,
              [Call.getUser, Call.getRepo repoName, Call.createRepo repoName true])
        else
          (.httpError 400 ("Repo access error: " ++ msg),
            [Call.getUser, Call.getRepo repoName])

/-- Is this call a file update? -/
def Call.isUpdateFile : Call → Bool
  | .updateFile _ _ _ _ _ => true
  | _ => false

/-- Is this call a file create? -/
def Call.isCreateFile : Call → Bool
  | .createFile _ _ _ _ => true
  | _ => false

/-- Is this call a repository create? -/
def Call.isCreateRepo : Call → Bool
  | .createRepo _ _ => true
  | _ => false

/-- Is this call the Pages-configuration fetch? -/
def Call.isPagesGet : Call → Bool
  | .pagesGet _ _ => true
  | _ => false

/-- The content argument of a file create or update call, if any. -/
def Call.fileContent : Call → Option String
  | .updateFile _ _ content _ _ => some content
  | .createFile _ _ content _ => some content
  | _ => none

/-- Is this call the Pages-configuration create? -/
def Call.isPagesPost : Call → Bool
  | .pagesPost _ _ => true
  | _ => false

/-- Is this result the handler's success response? -/
def DeployResult.isSuccess : DeployResult → Bool
  | .success _ => true
  | _ => false

/-- An environment where every external call succeeds: the end-to-end
scenario of the spec (repository and file already present variant is
obtained by overriding fields). -/
def happyEnv : Env where
  getUser := .ok "user"
  getRepo := .ok
  createRepo := .ok
  getContents := .ok "abc123"
  updateFile := .ok
  createFile := .ok
  pagesPost := ⟨201, "", none⟩
  pagesGet := ⟨200, "", some "https://user.github.io/demo-site/"⟩

/-- If every character of `s` is Python whitespace, `s.strip()` is empty. -/
lemma pyStrip_eq_empty_of_all_space (s : String)
    (h : s.toList.all isPySpace = true) : pyStrip s = "" := by
  unfold pyStrip
  have hd : s.data.dropWhile isPySpace = [] := by
    apply List.dropWhile_eq_nil_iff.mpr
    intro x hx
    exact List.all_eq_true.mp h x hx
  simp [String.toList, hd]

/-- The Pages steps only ever issue the Pages create and fetch calls. -/
lemma pagesSteps_snd (env : Env) (u r : String) :
    (pagesSteps env u r).2 = [Call.pagesPost u r] ∨
    (pagesSteps env u r).2 = [Call.pagesPost u r, Call.pagesGet u r] := by
  simp only [pagesSteps]
  split
  · exact Or.inl rfl
  · split
    · exact Or.inr rfl
    · rcases h : env.pagesGet.htmlUrl with _ | url
      · simp [h]
      · simp only [h]
        split
        · exact Or.inr rfl
        · exact Or.inr rfl

/-- C1: for every request whose html is empty or whitespace-only, `deploy`
fails with the ValidationError (`HTTPException(400, "Empty HTML content
provided")`) and makes no external call at all (empty trace). -/
theorem C1_empty_html_rejected_before_any_call (env : Env) (req : DeployRequest)
    (h : req.html.toList.all isPySpace = true) :
    deploy env req = (.httpError 400 "Empty HTML content provided", []) := by
  unfold deploy
  simp [pyStrip_eq_empty_of_all_space _ h]

/-- Witness for C1 at the whitespace-only input `" \n\t "`. -/
theorem C1_witness :
    (" \n\t " : String).toList.all isPySpace = true ∧
    deploy happyEnv ⟨"demo-site", " \n\t "⟩ =
      (.httpError 400 "Empty HTML content provided", []) :=
  ⟨by decide,
   C1_empty_html_rejected_before_any_call happyEnv ⟨"demo-site", " \n\t "⟩ (by decide)⟩

/-- C7: when the provider rejects the credential (the `g.get_user()` call
raises), `deploy` fails with the AuthError (`HTTPException(401, "Invalid
GitHub token")`) and the only external call made is the authentication
call: no repository lookup, file operation or Pages operation follows. -/
theorem C7_auth_failure_aborts (env : Env) (req : DeployRequest)
    (hhtml : pyStrip req.html ≠ "") (hu : env.getUser = .exc) :
    deploy env req = (.httpError 401 "Invalid GitHub token", [.getUser]) := by
  unfold deploy
  simp [hhtml, hu]

/-- Witness for C7: rejected credential on an otherwise happy run. -/
theorem C7_witness :
    pyStrip "<h1>Hi</h1>" ≠ "" ∧
    deploy { happyEnv with getUser := .exc } ⟨"demo-site", "<h1>Hi</h1>"⟩ =
      (.httpError 401 "Invalid GitHub token", [.getUser]) :=
  ⟨by decide,
   C7_auth_failure_aborts { happyEnv with getUser := .exc }
     ⟨"demo-site", "<h1>Hi</h1>"⟩ (by decide) rfl⟩

/-- A predicate false on both Pages calls selects nothing from the Pages
steps' trace. -/
lemma pagesSteps_filter_eq_nil (env : Env) (u r : String) (p : Call → Bool)
    (hpost : p (Call.pagesPost u r) = false) (hget : p (Call.pagesGet u r) = false) :
    (pagesSteps env u r).2.filter p = [] := by
  rcases pagesSteps_snd env u r with h | h <;> simp [h, hpost, hget]

/-- C2: when `index.html` already exists (the content lookup returns a sha)
and the run is otherwise happy up to the push, `deploy` makes exactly one
file-update call, that call carries the sha returned by the content lookup,
and no file-create call is made. -/
theorem C2_existing_file_single_update_with_sha (env : Env) (req : DeployRequest)
    (u sha : String)
    (hhtml : pyStrip req.html ≠ "") (hu : env.getUser = .ok u)
    (hr : env.getRepo = .ok) (hc : env.getContents = .ok sha)
    (hup : env.updateFile = .ok) :
    (deploy env req).2.filter Call.isUpdateFile =
      [.updateFile "index.html" "Update index.html" req.html sha "main"] ∧
    (deploy env req).2.filter Call.isCreateFile = [] := by
  have h1 := pagesSteps_filter_eq_nil env u req.repoName Call.isUpdateFile rfl rfl
  have h2 := pagesSteps_filter_eq_nil env u req.repoName Call.isCreateFile rfl rfl
  unfold deploy fileSteps
  simp [hhtml, hu, hr, hc, hup, h1, h2, Call.isUpdateFile, Call.isCreateFile]

/-- Witness for C2: repository and file both present, happy run. -/
theorem C2_witness :
    pyStrip "<h1>Hi</h1>" ≠ "" ∧
    (deploy happyEnv ⟨"demo-site", "<h1>Hi</h1>"⟩).2.filter Call.isUpdateFile =
      [.updateFile "index.html" "Update index.html" "<h1>Hi</h1>" "abc123" "main"] ∧
    (deploy happyEnv ⟨"demo-site", "<h1>Hi</h1>"⟩).2.filter Call.isCreateFile = [] :=
  ⟨by decide,
   C2_existing_file_single_update_with_sha happyEnv ⟨"demo-site", "<h1>Hi</h1>"⟩
     "user" "abc123" (by decide) rfl rfl rfl rfl⟩

/-- C3: when the repository lookup yields not-found (a `GithubException`
with status 404) and the run is otherwise happy, `deploy` makes exactly one
repository-creation call with `auto_init=True` and exactly one file-create
call, and no file-update call. -/
theorem C3_absent_repo_create_then_create_file (env : Env) (req : DeployRequest)
    (u msg : String)
    (hhtml : pyStrip req.html ≠ "") (hu : env.getUser = .ok u)
    (hr : env.getRepo = .ghExc 404 msg) (hcr : env.createRepo = .ok)
    (hgc : env.getContents = .unknownObjectExc) (hcf : env.createFile = .ok) :
    (deploy env req).2.filter Call.isCreateRepo = [.createRepo req.repoName true] ∧
    (deploy env req).2.filter Call.isCreateFile =
      [.createFile "index.html" "Add index.html" req.html "main"] ∧
    (deploy env req).2.filter Call.isUpdateFile = [] := by
  have h1 := pagesSteps_filter_eq_nil env u req.repoName Call.isCreateRepo rfl rfl
  have h2 := pagesSteps_filter_eq_nil env u req.repoName Call.isCreateFile rfl rfl
  have h3 := pagesSteps_filter_eq_nil env u req.repoName Call.isUpdateFile rfl rfl
  unfold deploy fileSteps createFileStep
  simp [hhtml, hu, hr, hcr, hgc, hcf, h1, h2, h3,
    Call.isCreateRepo, Call.isCreateFile, Call.isUpdateFile]

/-- The happy environment for an absent repository: the lookup yields a
404 `GithubException` and the fresh auto-initialized repository holds no
`index.html`. -/
def newRepoEnv : Env :=
  { happyEnv with
    getRepo := .ghExc 404 "Not Found"
    getContents := .unknownObjectExc }

/-- Witness for C3: absent repository, happy creation run. -/
theorem C3_witness :
    pyStrip "<h1>Hi</h1>" ≠ "" ∧
    (deploy newRepoEnv ⟨"demo-site", "<h1>Hi</h1>"⟩).2.filter
        Call.isCreateRepo = [.createRepo "demo-site" true] ∧
    (deploy newRepoEnv ⟨"demo-site", "<h1>Hi</h1>"⟩).2.filter
        Call.isCreateFile = [.createFile "index.html" "Add index.html" "<h1>Hi</h1>" "main"] ∧
    (deploy newRepoEnv ⟨"demo-site", "<h1>Hi</h1>"⟩).2.filter
        Call.isUpdateFile = [] :=
  ⟨by decide,
   C3_absent_repo_create_then_create_file newRepoEnv
     ⟨"demo-site", "<h1>Hi</h1>"⟩ "user" "Not Found"
     (by decide) rfl rfl rfl rfl rfl⟩

/-- When the Pages-enable response status is outside {201, 204}, the Pages
steps stop at the enable call and surface its status and body. -/
lemma pagesSteps_of_post_fail (env : Env) (u r : String)
    (h1 : env.pagesPost.status ≠ 201) (h2 : env.pagesPost.status ≠ 204) :
    pagesSteps env u r =
      (.httpError 500 ("Enabling Pages failed (" ++ toString env.pagesPost.status
          ++ "): " ++ env.pagesPost.text),
        [.pagesPost u r]) := by
  simp only [pagesSteps]
  rw [if_pos ⟨h1, h2⟩]

/-- C4: when the Pages-enable call returns a status outside {201, 204},
`deploy` never makes the Pages-fetch call, and whenever the Pages-enable
call was made at all the handler fails with the PagesEnableError
(`HTTPException(500, ...)`) whose detail contains the returned status code
and response body. -/
theorem C4_pages_enable_failure_stops_before_fetch (env : Env) (req : DeployRequest)
    (h1 : env.pagesPost.status ≠ 201) (h2 : env.pagesPost.status ≠ 204) :
    (deploy env req).2.filter Call.isPagesGet = [] ∧
    ((deploy env req).2.any Call.isPagesPost = true →
      (deploy env req).1 = .httpError 500
        ("Enabling Pages failed (" ++ toString env.pagesPost.status
          ++ "): " ++ env.pagesPost.text)) := by
  have hps : ∀ u r, pagesSteps env u r =
      (.httpError 500 ("Enabling Pages failed (" ++ toString env.pagesPost.status
          ++ "): " ++ env.pagesPost.text),
        [.pagesPost u r]) :=
    fun u r => pagesSteps_of_post_fail env u r h1 h2
  by_cases hh : pyStrip req.html = ""
  · constructor
    · simp [deploy, hh]
    · simp [deploy, hh]
  · constructor
    · unfold deploy fileSteps createFileStep
      rw [if_neg hh]
      repeat' split
      all_goals simp [hps, Call.isPagesGet]
    · unfold deploy fileSteps createFileStep
      rw [if_neg hh]
      repeat' split
      all_goals simp [hps, Call.isPagesPost]

/-- An otherwise happy environment whose Pages-enable call returns 403. -/
def pagesFailEnv : Env :=
  { happyEnv with pagesPost := ⟨403, "Forbidden", none⟩ }

/-- Witness for C4: the Pages-enable call answers 403. -/
theorem C4_witness :
    pagesFailEnv.pagesPost.status ≠ 201 ∧ pagesFailEnv.pagesPost.status ≠ 204 ∧
    ((deploy pagesFailEnv ⟨"demo-site", "<h1>Hi</h1>"⟩).2.filter Call.isPagesGet = [] ∧
     ((deploy pagesFailEnv ⟨"demo-site", "<h1>Hi</h1>"⟩).2.any Call.isPagesPost = true →
       (deploy pagesFailEnv ⟨"demo-site", "<h1>Hi</h1>"⟩).1 = .httpError 500
         ("Enabling Pages failed (" ++ toString pagesFailEnv.pagesPost.status
           ++ "): " ++ pagesFailEnv.pagesPost.text))) :=
  ⟨by decide, by decide,
   C4_pages_enable_failure_stops_before_fetch pagesFailEnv
     ⟨"demo-site", "<h1>Hi</h1>"⟩ (by decide) (by decide)⟩

/-- When the Pages-fetch response has status 200 but no `html_url` field,
the Pages steps end either at the enable call (enable failure) or with the
missing-URL error; the outcome does not depend on owner or repository. -/
lemma pagesSteps_cases_of_get_no_url (env : Env)
    (h1 : env.pagesGet.status = 200) (h2 : env.pagesGet.htmlUrl = none) :
    (∀ u r, pagesSteps env u r =
      (.httpError 500 ("Enabling Pages failed (" ++ toString env.pagesPost.status
          ++ "): " ++ env.pagesPost.text),
        [.pagesPost u r])) ∨
    (∀ u r, pagesSteps env u r =
      (.httpError 500 "No html_url in Pages response",
        [.pagesPost u r, .pagesGet u r])) := by
  by_cases hpost : env.pagesPost.status ≠ 201 ∧ env.pagesPost.status ≠ 204
  · exact Or.inl fun u r => pagesSteps_of_post_fail env u r hpost.1 hpost.2
  · refine Or.inr fun u r => ?_
    simp only [pagesSteps]
    rw [if_neg hpost, if_neg (by simp [h1])]
    simp [h2]

/-- C5: when the Pages-fetch call returns status 200 with a JSON body
lacking `html_url`, `deploy` never returns a success result, and whenever
the Pages-fetch call was made the handler fails with the PagesFetchError
`HTTPException(500, "No html_url in Pages response")`. -/
theorem C5_missing_html_url_is_error (env : Env) (req : DeployRequest)
    (h1 : env.pagesGet.status = 200) (h2 : env.pagesGet.htmlUrl = none) :
    (deploy env req).1.isSuccess = false ∧
    ((deploy env req).2.any Call.isPagesGet = true →
      (deploy env req).1 = .httpError 500 "No html_url in Pages response") := by
  rcases pagesSteps_cases_of_get_no_url env h1 h2 with hps | hps <;>
  · by_cases hh : pyStrip req.html = ""
    · exact ⟨by simp [deploy, hh, DeployResult.isSuccess], by simp [deploy, hh]⟩
    · constructor
      · unfold deploy fileSteps createFileStep
        rw [if_neg hh]
        repeat' split
        all_goals simp [hps, DeployResult.isSuccess]
      · unfold deploy fileSteps createFileStep
        rw [if_neg hh]
        repeat' split
        all_goals simp [hps, Call.isPagesGet]

/-- An otherwise happy environment whose Pages-fetch response is a 200
with no `html_url` field. -/
def noUrlEnv : Env :=
  { happyEnv with pagesGet := ⟨200, "{}", none⟩ }

/-- Witness for C5: Pages-fetch answers 200 without `html_url`. -/
theorem C5_witness :
    noUrlEnv.pagesGet.status = 200 ∧ noUrlEnv.pagesGet.htmlUrl = none ∧
    ((deploy noUrlEnv ⟨"demo-site", "<h1>Hi</h1>"⟩).1.isSuccess = false ∧
     ((deploy noUrlEnv ⟨"demo-site", "<h1>Hi</h1>"⟩).2.any Call.isPagesGet = true →
       (deploy noUrlEnv ⟨"demo-site", "<h1>Hi</h1>"⟩).1 =
         .httpError 500 "No html_url in Pages response")) :=
  ⟨rfl, rfl,
   C5_missing_html_url_is_error noUrlEnv ⟨"demo-site", "<h1>Hi</h1>"⟩ rfl rfl⟩

/-- An otherwise happy environment whose repository lookup fails with a
`GithubException` carrying status 500 (not the not-found signal). -/
def c6Env : Env :=
  { happyEnv with getRepo := .ghExc 500 "Server Error" }

/-- C6 counterexample: on a non-404 lookup failure the handler raises
`HTTPException(status_code=400, ...)` (main.py line 53), not 500 as the
claim states. -/
theorem C6_counterexample :
    (deploy c6Env ⟨"demo-site", "<h1>Hi</h1>"⟩).1 =
      .httpError 400 "Repo access error: Server Error" ∧
    (deploy c6Env ⟨"demo-site", "<h1>Hi</h1>"⟩).1.httpStatus ≠ some 500 := by
  decide

/-- C6 (amended): for every repository-lookup failure whose signal is not
the not-found signal, `deploy` fails with the RepoAccessError carried as
HTTP status 400 with the provider's diagnostic text, and stops after the
lookup. -/
theorem C6_amended_repo_access_error_is_400 (env : Env) (req : DeployRequest)
    (u m : String) (s : Nat)
    (hhtml : pyStrip req.html ≠ "") (hu : env.getUser = .ok u)
    (hr : env.getRepo = .ghExc s m) (hs : s ≠ 404) :
    deploy env req =
      (.httpError 400 ("Repo access error: " ++ m),
        [.getUser, .getRepo req.repoName]) := by
  unfold deploy
  simp [hhtml, hu, hr, hs]

/-- Witness for the amended C6: lookup fails with status 500. -/
theorem C6_witness :
    pyStrip "<h1>Hi</h1>" ≠ "" ∧ c6Env.getRepo = .ghExc 500 "Server Error" ∧
    (500 : Nat) ≠ 404 ∧
    deploy c6Env ⟨"demo-site", "<h1>Hi</h1>"⟩ =
      (.httpError 400 "Repo access error: Server Error",
        [.getUser, .getRepo "demo-site"]) :=
  ⟨by decide, rfl, by decide,
   C6_amended_repo_access_error_is_400 c6Env ⟨"demo-site", "<h1>Hi</h1>"⟩
     "user" "Server Error" 500 (by decide) rfl rfl (by decide)⟩

/-- An environment where `index.html` is absent and the file-create call
fails with a provider exception. -/
def c8Env : Env :=
  { happyEnv with
    getContents := .unknownObjectExc
    createFile := .exc "422 Validation Failed" }

/-- C8: evaluation at the failing input.  When `index.html` is absent and
the file-create call fails, the exception is raised inside the `except
UnknownObjectException` handler (main.py lines 67-73), so the `except
Exception` clause of the same `try` does not catch it: the failure escapes
the handler as an unstructured exception instead of the structured
`HTTPException` the spec promises. -/
theorem C8_create_file_failure_escapes_unstructured :
    deploy c8Env ⟨"demo-site", "<h1>Hi</h1>"⟩ =
      (.unhandled "422 Validation Failed",
        [.getUser, .getRepo "demo-site", .getContents "index.html" "main",
          .createFile "index.html" "Add index.html" "<h1>Hi</h1>" "main"]) := by
  decide

/-- C9 counterexample: a request with empty `repoName` is not rejected
locally — the provider repository lookup is made with the empty name and
the run even succeeds. -/
theorem C9_counterexample :
    Call.getRepo "" ∈ (deploy happyEnv ⟨"", "<h1>Hi</h1>"⟩).2 ∧
    (deploy happyEnv ⟨"", "<h1>Hi</h1>"⟩).1.httpStatus ≠ some 400 ∧
    (deploy happyEnv ⟨"", "<h1>Hi</h1>"⟩).1 =
      .success "https://user.github.io/demo-site/" := by
  decide

/-- C9 (amended): `deploy` performs no local validation of `repoName`
whatsoever; once the html check and authentication pass, even the empty
repository name is forwarded unchanged to the provider lookup. -/
theorem C9_amended_repoName_not_validated (env : Env) (html u : String)
    (hhtml : pyStrip html ≠ "") (hu : env.getUser = .ok u) :
    Call.getRepo "" ∈ (deploy env ⟨"", html⟩).2 := by
  rcases hr : env.getRepo with _ | ⟨s, m⟩
  · simp [deploy, hhtml, hu, hr]
  · rcases hcr : env.createRepo with _ | m2 <;>
      by_cases hs : s = 404 <;>
      simp [deploy, hhtml, hu, hr, hcr, hs]

/-- Witness for the amended C9: empty `repoName` on a happy run. -/
theorem C9_witness :
    pyStrip "<h1>Hi</h1>" ≠ "" ∧
    Call.getRepo "" ∈ (deploy happyEnv ⟨"", "<h1>Hi</h1>"⟩).2 :=
  ⟨by decide,
   C9_amended_repoName_not_validated happyEnv "<h1>Hi</h1>" "user" (by decide) rfl⟩

/-- The Pages steps make no call carrying file content. -/
lemma pagesSteps_all_fileContent (env : Env) (u r x : String) :
    ((pagesSteps env u r).2.all fun c => c.fileContent.getD x == x) = true := by
  rcases pagesSteps_snd env u r with h | h <;> simp [h, Call.fileContent]

/-- C10: every file-create or file-update call made by `deploy` carries
the request's `html` string verbatim as its content argument; trimming is
used only for the emptiness check. -/
theorem C10_file_content_is_request_html_verbatim (env : Env) (req : DeployRequest) :
    ((deploy env req).2.all fun c => c.fileContent.getD req.html == req.html) = true := by
  by_cases hh : pyStrip req.html = ""
  · simp [deploy, hh]
  · unfold deploy fileSteps createFileStep
    rw [if_neg hh]
    repeat' split
    all_goals simp only [List.all_cons, List.all_nil, Call.fileContent,
      Option.getD_some, Option.getD_none, beq_self_eq_true, Bool.true_and,
      Bool.and_self, Bool.and_true]
    all_goals exact pagesSteps_all_fileContent _ _ _ _
